import Mathlib

/-!
Verification of `src/main.py` of the masterplan repository: a Streamlit tool
that renders an uploaded plan image into a 5-page PDF (full view plus four
quadrant close-ups) and sends it to a generative-AI endpoint.

Embedding conventions:
* Python float arithmetic in the layout computation is embedded as exact
  rational arithmetic over `ℚ`; pixel dimensions and crop boxes are `ℕ`.
* Python division raises `ZeroDivisionError` on a zero denominator; the model
  therefore guards every division whose denominator can be zero and raises an
  explicit error there, instead of relying on Lean's junk value `x / 0 = 0`.
* Calls into external libraries (PIL `Image.open`/`convert`, reportlab's
  canvas, the Gemini client) are modelled by oracles: an environment record
  fixing the outcome (normal return or raised exception) of each such call.
  A Python function that can let an exception escape is embedded as a
  function into `Except`, where `.error` means an exception propagated to
  the caller and `.ok` means the function returned normally.
-/

/-- A computed placement of an image on one PDF page: the four values
`draw_width`, `draw_height`, `x_offset`, `y_offset` of source lines 47-55. -/
structure PageLayout where
  draw_width : ℚ
  draw_height : ℚ
  x_offset : ℚ
  y_offset : ℚ
  deriving DecidableEq, Repr

/-- The width-constrained branch of the full-page layout (source lines 48-49
together with the offset lines 54-55): the image is relatively wider than the
page, so `draw_width = pdf_width` and `draw_height = pdf_width / aspect`. -/
def layoutWidthConstrained (img_width img_height pdf_width pdf_height : ℚ) :
    PageLayout :=
  let aspect := img_width / img_height
  let draw_width := pdf_width
  let draw_height := pdf_width / aspect
  { draw_width := draw_width
    draw_height := draw_height
    x_offset := (pdf_width - draw_width) / 2
    y_offset := (pdf_height - draw_height) / 2 }

/-- The height-constrained branch of the full-page layout (source lines 51-52
together with the offset lines 54-55): `draw_height = pdf_height` and
`draw_width = pdf_height * aspect`. -/
def layoutHeightConstrained (img_width img_height pdf_width pdf_height : ℚ) :
    PageLayout :=
  let aspect := img_width / img_height
  let draw_height := pdf_height
  let draw_width := pdf_height * aspect
  { draw_width := draw_width
    draw_height := draw_height
    x_offset := (pdf_width - draw_width) / 2
    y_offset := (pdf_height - draw_height) / 2 }

/-- The full-page layout computation of `create_plan_pdf`, source lines 45-55:
compare the image aspect `img_width / img_height` with the page aspect
`pdf_width / pdf_height`; the width-constrained branch is taken exactly when
the comparison is strict (Python `>`). -/
def computeLayout (img_width img_height pdf_width pdf_height : ℚ) : PageLayout :=
  if img_width / img_height > pdf_width / pdf_height then
    layoutWidthConstrained img_width img_height pdf_width pdf_height
  else
    layoutHeightConstrained img_width img_height pdf_width pdf_height

/-- The quadrant-page layout computation of `create_plan_pdf`, source lines
72-81: textually the same computation as lines 45-55, applied to the cropped
quadrant's own width and height. -/
def computeQuadLayout (crop_width crop_height pdf_width pdf_height : ℚ) :
    PageLayout :=
  if crop_width / crop_height > pdf_width / pdf_height then
    layoutWidthConstrained crop_width crop_height pdf_width pdf_height
  else
    layoutHeightConstrained crop_width crop_height pdf_width pdf_height

/-- One of the four fixed quadrant keys, the dictionary keys of source
lines 34-39 (also the fixed page order of source line 62). -/
inductive QuadKey where
  | upper_left
  | upper_right
  | lower_left
  | lower_right
  deriving DecidableEq, Repr

/-- A pixel rectangle `(x0, y0, x1, y1)` as passed to PIL `Image.crop`. -/
structure Rect where
  x0 : ℕ
  y0 : ℕ
  x1 : ℕ
  y1 : ℕ
  deriving DecidableEq, Repr

/-- PIL crop semantics: the crop of box `(x0, y0, x1, y1)` has pixel width
`x1 - x0` (the box is half-open on the right). -/
def Rect.width (r : Rect) : ℕ := r.x1 - r.x0

/-- PIL crop semantics: the crop of box `(x0, y0, x1, y1)` has pixel height
`y1 - y0` (the box is half-open on the bottom). -/
def Rect.height (r : Rect) : ℕ := r.y1 - r.y0

/-- Membership of pixel `(x, y)` in rectangle `r`: half-open on the right and
bottom, matching PIL's pixel semantics for crop boxes. -/
def Rect.containsPixel (r : Rect) (x y : ℕ) : Prop :=
  r.x0 ≤ x ∧ x < r.x1 ∧ r.y0 ≤ y ∧ y < r.y1

instance (r : Rect) (x y : ℕ) : Decidable (r.containsPixel x y) := by
  unfold Rect.containsPixel
  infer_instance

/-- Integer midpoint `quad_width = img_width // 2` of source line 31. -/
def quad_width (img_width : ℕ) : ℕ := img_width / 2

/-- Integer midpoint `quad_height = img_height // 2` of source line 32. -/
def quad_height (img_height : ℕ) : ℕ := img_height / 2

/-- The `quadrants` dictionary of source lines 34-39, mapping each quadrant
key to its crop box. -/
def quadrants (img_width img_height : ℕ) : QuadKey → Rect
  | .upper_left => ⟨0, 0, quad_width img_width, quad_height img_height⟩
  | .upper_right => ⟨quad_width img_width, 0, img_width, quad_height img_height⟩
  | .lower_left => ⟨0, quad_height img_height, quad_width img_width, img_height⟩
  | .lower_right =>
      ⟨quad_width img_width, quad_height img_height, img_width, img_height⟩

/-- The fixed page order `quadrant_order` of source line 62. -/
def quadrant_order : List QuadKey :=
  [.upper_left, .upper_right, .lower_left, .lower_right]

/-- Outcome of `Image.open` when it raises (source lines 19-25): the two
`except` clauses distinguish `FileNotFoundError` from any other exception,
but both print a message and return `False`. -/
inductive OpenError where
  | fileNotFound (msg : String)
  | other (msg : String)
  deriving DecidableEq, Repr

/-- An exception that `create_plan_pdf` can let escape to its caller:
Python's `ZeroDivisionError` (raised by `/` on a zero denominator, source
line 72 when a quadrant crop has zero height), or an exception raised by the
image/PDF libraries while normalizing, cropping or drawing. -/
inductive PyError where
  | zeroDivision
  | renderError (msg : String)
  deriving DecidableEq, Repr

/-- A decoded PIL image: its pixel size and color mode, the only attributes
`create_plan_pdf` reads. -/
structure Img where
  width : ℕ
  height : ℕ
  mode : String
  deriving DecidableEq, Repr

/-- Oracle for the external library calls made by `create_plan_pdf`:
the outcome of `Image.open` (source line 19), of `convert('RGB')` (source
line 28, consulted only when the mode is not already RGB), of the drawing
calls on each of the five pages (`drawImage`/`drawString`/`showPage`, pages
numbered 0-4), and of `canvas.save` (source line 88). -/
structure RenderEnv where
  openResult : Except OpenError Img
  convertResult : Except String Unit
  drawResult : ℕ → Except String Unit
  saveResult : Except String Unit

/-- The quadrant loop of source lines 70-86 followed by `c.save()` and
`return True` (source lines 88-90): for each quadrant in order, crop it,
compute `cropped_quad.width / cropped_quad.height` — which raises
`ZeroDivisionError` when the crop height is zero — lay the crop out on the
page, and draw it; no `try` protects this loop, so the first raised
exception propagates. -/
def drawQuadrantPages (env : RenderEnv) (img_width img_height : ℕ) :
    List QuadKey → ℕ → Except PyError Bool
  | [], _ =>
      match env.saveResult with
      | .error e => .error (.renderError e)
      | .ok _ => .ok true
  | k :: ks, page =>
      let cropped_quad := quadrants img_width img_height k
      if cropped_quad.height = 0 then .error .zeroDivision
      else
        match env.drawResult page with
        | .error e => .error (.renderError e)
        | .ok _ => drawQuadrantPages env img_width img_height ks (page + 1)

/-- The `create_plan_pdf` function of source lines 17-90, embedded over the
oracle `env`. Only `Image.open` sits inside the `try` (lines 18-25), and both
`except` clauses return `False`; everything after it — the RGB conversion,
the aspect divisions, and all drawing — runs unprotected, so an exception
raised there escapes (an `.error` result). The full-page aspect division
`img_width / img_height` (line 45) raises `ZeroDivisionError` when the
decoded height is zero. -/
def create_plan_pdf (env : RenderEnv) : Except PyError Bool :=
  match env.openResult with
  | .error _ => .ok false
  | .ok original_image =>
      match (if original_image.mode ≠ "RGB" then env.convertResult
             else .ok ()) with
      | .error e => .error (.renderError e)
      | .ok _ =>
          if original_image.height = 0 then .error .zeroDivision
          else
            match env.drawResult 0 with
            | .error e => .error (.renderError e)
            | .ok _ =>
                drawQuadrantPages env original_image.width
                  original_image.height quadrant_order 1

/-- Oracle for the external calls made by `get_plan_analysis`: whether
`os.path.exists(pdf_path)` holds (source line 96), and the outcome of the
`client.models.generate_content` request (source lines 117-123) — the one
call that performs network activity, where network, authentication, quota
and model errors surface; it sits inside the `try` of lines 116-126.
Constructing `genai.Client` with a non-empty key and reading the bytes of a
file that was just checked to exist are local, non-raising steps in this
single-threaded flow and are not modelled as fallible. -/
structure AnalysisEnv where
  pdfExists : Bool
  generateResult : Except String String

/-- Characters dropped from the ends of a string by Python's `str.strip()`:
drop leading whitespace from a character list (space, tab, newline,
carriage return). -/
def dropLeadingWs : List Char → List Char
  | [] => []
  | c :: cs => if c.isWhitespace then dropLeadingWs cs else c :: cs

/-- Python's `prompt_text.strip()` (source line 98): remove leading and
trailing whitespace. Defined by structural recursion so that concrete
instances evaluate. -/
def py_strip (s : String) : String :=
  String.mk ((dropLeadingWs (dropLeadingWs s.data).reverse).reverse)

/-- Result of `get_plan_analysis`: the returned string, and whether the
network request was attempted. -/
structure AnalysisOutcome where
  result : String
  networkCalled : Bool
  deriving DecidableEq, Repr

/-- The `get_plan_analysis` function of source lines 93-126. Python's
`prompt_text.strip()` is embedded as `py_strip`; an empty API key string
is falsy, which is the only falsy value of a `str`. -/
def get_plan_analysis (gemini_api_key pdf_path prompt_text : String)
    (env : AnalysisEnv) : AnalysisOutcome :=
  if gemini_api_key = "" then
    ⟨"Error: Gemini API key not provided.", false⟩
  else if env.pdfExists = false then
    ⟨"Error: PDF file not found at " ++ pdf_path, false⟩
  else if py_strip prompt_text = "" then
    ⟨"Error: Prompt text cannot be empty.", false⟩
  else
    match env.generateResult with
    | .ok text => ⟨text, true⟩
    | .error e =>
        ⟨"Error interacting with Gemini API: " ++ e ++
          ". Check API key and model access.", true⟩

/-- Inputs of one submit action in `main` (the button handler of source
lines 222-247): the render oracle, the credentials and prompt collected by
the form, the temporary PDF path, and the analysis oracle. -/
structure SubmitEnv where
  renderEnv : RenderEnv
  gemini_api_key : String
  custom_prompt : String
  output_pdf_path : String
  analysisEnv : AnalysisEnv

/-- Observable outcome of one submit action: the exception that escaped the
handler (if any), whether each temporary file was deleted (source lines
244-247), whether `get_plan_analysis` was invoked, and the displayed
analysis string. -/
structure SubmitOutcome where
  escaped : Option PyError
  imageDeleted : Bool
  pdfDeleted : Bool
  analysisCalled : Bool
  analysisResult : Option String
  deriving DecidableEq, Repr

/-- The body of `main`'s "Generate PDF and Analyze" button handler, source
lines 222-247: run `create_plan_pdf`; if it returned `True`, offer the
download and call `get_plan_analysis`; then delete both temporary files.
No `try`/`finally` protects the handler, so an exception escaping
`create_plan_pdf` aborts it before the deletion statements. -/
def submitAction (env : SubmitEnv) : SubmitOutcome :=
  match create_plan_pdf env.renderEnv with
  | .error e => ⟨some e, false, false, false, none⟩
  | .ok pdf_created =>
      if pdf_created then
        let analysis_response := get_plan_analysis env.gemini_api_key
          env.output_pdf_path env.custom_prompt env.analysisEnv
        ⟨none, true, true, true, some analysis_response.result⟩
      else
        ⟨none, true, true, false, none⟩

/-- Render oracle in which every external call succeeds, for a given decoded
image. -/
def allOkEnv (img : Img) : RenderEnv :=
  { openResult := Except.ok img
    convertResult := Except.ok ()
    drawResult := fun _ => Except.ok ()
    saveResult := Except.ok () }

/-- Render oracle for an 800×600 RGB image whose first drawing call raises. -/
def drawFailEnv : RenderEnv :=
  { openResult := Except.ok ⟨800, 600, "RGB"⟩
    convertResult := Except.ok ()
    drawResult := fun _ => Except.error "drawImage failed"
    saveResult := Except.ok () }

/-- Render oracle for an 800×600 CMYK image whose `convert('RGB')` call
raises, as happens for a truncated file that `Image.open` accepted lazily. -/
def convertFailEnv : RenderEnv :=
  { openResult := Except.ok ⟨800, 600, "CMYK"⟩
    convertResult := Except.error "image file is truncated"
    drawResult := fun _ => Except.ok ()
    saveResult := Except.ok () }

/-- Render oracle for a missing source file: `Image.open` raises
`FileNotFoundError`. -/
def missingFileEnv : RenderEnv :=
  { openResult := Except.error (OpenError.fileNotFound "no such file")
    convertResult := Except.ok ()
    drawResult := fun _ => Except.ok ()
    saveResult := Except.ok () }

/-- Submit action on a 1×1 uploaded image: rendering reaches the quadrant
loop, whose first crop has zero height. -/
def tinyImageSubmitEnv : SubmitEnv :=
  { renderEnv := allOkEnv ⟨1, 1, "RGB"⟩
    gemini_api_key := "key"
    custom_prompt := "Describe the plan."
    output_pdf_path := "/tmp/out.pdf"
    analysisEnv := { pdfExists := true, generateResult := Except.ok "text" } }

/-- Submit action on a healthy 1600×1200 image with a successful analysis. -/
def okSubmitEnv : SubmitEnv :=
  { renderEnv := allOkEnv ⟨1600, 1200, "RGB"⟩
    gemini_api_key := "key"
    custom_prompt := "Describe the plan."
    output_pdf_path := "/tmp/out.pdf"
    analysisEnv := { pdfExists := true, generateResult := Except.ok "text" } }

/-- Submit action whose source image file is missing. -/
def missingFileSubmitEnv : SubmitEnv :=
  { renderEnv := missingFileEnv
    gemini_api_key := "key"
    custom_prompt := "Describe the plan."
    output_pdf_path := "/tmp/out.pdf"
    analysisEnv := { pdfExists := true, generateResult := Except.ok "text" } }

theorem computeQuadLayout_eq_computeLayout
    (w h pw ph : ℚ) : computeQuadLayout w h pw ph = computeLayout w h pw ph :=
  rfl

theorem computeLayout_aspect (img_width img_height pdf_width pdf_height : ℚ)
    (hiw : 0 < img_width) (hih : 0 < img_height)
    (hpw : 0 < pdf_width) (hph : 0 < pdf_height) :
    (computeLayout img_width img_height pdf_width pdf_height).draw_width /
      (computeLayout img_width img_height pdf_width pdf_height).draw_height =
      img_width / img_height := by
  have hiw' : img_width ≠ 0 := ne_of_gt hiw
  have hih' : img_height ≠ 0 := ne_of_gt hih
  have hpw' : pdf_width ≠ 0 := ne_of_gt hpw
  have hph' : pdf_height ≠ 0 := ne_of_gt hph
  unfold computeLayout layoutWidthConstrained layoutHeightConstrained
  split
  · dsimp only
    field_simp
    ring
  · dsimp only
    field_simp
    ring

/-- C1: for every positive imageWidth, imageHeight, pageWidth, pageHeight,
the page layout computed by `create_plan_pdf` — for the full image (source
lines 45-55) and for each quadrant crop (source lines 70-84, using the
crop's own dimensions) — preserves the image's aspect ratio exactly:
drawWidth / drawHeight equals imageWidth / imageHeight, so the image is
never stretched non-uniformly. -/
theorem C1_layout_preserves_aspect
    (img_width img_height pdf_width pdf_height : ℚ)
    (hiw : 0 < img_width) (hih : 0 < img_height)
    (hpw : 0 < pdf_width) (hph : 0 < pdf_height) :
    ((computeLayout img_width img_height pdf_width pdf_height).draw_width /
        (computeLayout img_width img_height pdf_width pdf_height).draw_height =
      img_width / img_height) ∧
    ((computeQuadLayout img_width img_height pdf_width pdf_height).draw_width /
        (computeQuadLayout img_width img_height pdf_width pdf_height).draw_height =
      img_width / img_height) ∧
    (∀ (w h : ℕ) (k : QuadKey),
      0 < (quadrants w h k).width → 0 < (quadrants w h k).height →
      (computeQuadLayout ((quadrants w h k).width : ℚ)
            ((quadrants w h k).height : ℚ) pdf_width pdf_height).draw_width /
          (computeQuadLayout ((quadrants w h k).width : ℚ)
            ((quadrants w h k).height : ℚ) pdf_width pdf_height).draw_height =
        ((quadrants w h k).width : ℚ) / ((quadrants w h k).height : ℚ)) := by
  refine ⟨computeLayout_aspect _ _ _ _ hiw hih hpw hph, ?_, ?_⟩
  · rw [computeQuadLayout_eq_computeLayout]
    exact computeLayout_aspect _ _ _ _ hiw hih hpw hph
  · intro w h k hw hh
    rw [computeQuadLayout_eq_computeLayout]
    exact computeLayout_aspect _ _ _ _
      (by exact_mod_cast hw) (by exact_mod_cast hh) hpw hph

theorem C1_layout_preserves_aspect_witness :
    (computeLayout 1600 1200 595 842).draw_width /
      (computeLayout 1600 1200 595 842).draw_height = 1600 / 1200 :=
  (C1_layout_preserves_aspect 1600 1200 595 842
    (by norm_num) (by norm_num) (by norm_num) (by norm_num)).1

/-- C2: for every positive imageWidth, imageHeight, pageWidth, pageHeight,
the computed layout fits the page with equality on at least one axis, the
offsets are exactly half the remaining slack, and hence the draw rectangle
lies within the page bounds on both axes. -/
theorem C2_layout_fits_and_centered
    (img_width img_height pdf_width pdf_height : ℚ)
    (hiw : 0 < img_width) (hih : 0 < img_height)
    (hpw : 0 < pdf_width) (hph : 0 < pdf_height) :
    (computeLayout img_width img_height pdf_width pdf_height).draw_width ≤
        pdf_width ∧
    (computeLayout img_width img_height pdf_width pdf_height).draw_height ≤
        pdf_height ∧
    ((computeLayout img_width img_height pdf_width pdf_height).draw_width =
        pdf_width ∨
      (computeLayout img_width img_height pdf_width pdf_height).draw_height =
        pdf_height) ∧
    (computeLayout img_width img_height pdf_width pdf_height).x_offset =
      (pdf_width -
        (computeLayout img_width img_height pdf_width pdf_height).draw_width) /
        2 ∧
    (computeLayout img_width img_height pdf_width pdf_height).y_offset =
      (pdf_height -
        (computeLayout img_width img_height pdf_width pdf_height).draw_height) /
        2 ∧
    0 ≤ (computeLayout img_width img_height pdf_width pdf_height).x_offset ∧
    (computeLayout img_width img_height pdf_width pdf_height).x_offset +
        (computeLayout img_width img_height pdf_width pdf_height).draw_width ≤
      pdf_width ∧
    0 ≤ (computeLayout img_width img_height pdf_width pdf_height).y_offset ∧
    (computeLayout img_width img_height pdf_width pdf_height).y_offset +
        (computeLayout img_width img_height pdf_width pdf_height).draw_height ≤
      pdf_height := by
  have ha : 0 < img_width / img_height := div_pos hiw hih
  unfold computeLayout layoutWidthConstrained layoutHeightConstrained
  split
  case isTrue h =>
    have hdh : pdf_width / (img_width / img_height) ≤ pdf_height := by
      rw [div_le_iff₀ ha, mul_comm]
      exact le_of_lt ((div_lt_iff₀ hph).mp h)
    have hdh0 : 0 < pdf_width / (img_width / img_height) := div_pos hpw ha
    dsimp only
    refine ⟨le_refl _, hdh, Or.inl rfl, rfl, rfl, ?_, ?_, ?_, ?_⟩ <;> linarith
  case isFalse h =>
    have h' : img_width / img_height ≤ pdf_width / pdf_height := not_lt.mp h
    have hdw : pdf_height * (img_width / img_height) ≤ pdf_width := by
      rw [mul_comm]
      exact (le_div_iff₀ hph).mp h'
    have hdw0 : 0 < pdf_height * (img_width / img_height) := by positivity
    dsimp only
    refine ⟨hdw, le_refl _, Or.inr rfl, rfl, rfl, ?_, ?_, ?_, ?_⟩ <;> linarith

theorem C2_layout_fits_and_centered_witness :
    (computeLayout 1600 1200 595 842).draw_width ≤ 595 ∧
    ((computeLayout 1600 1200 595 842).draw_width = 595 ∨
      (computeLayout 1600 1200 595 842).draw_height = 842) :=
  ⟨(C2_layout_fits_and_centered 1600 1200 595 842
      (by norm_num) (by norm_num) (by norm_num) (by norm_num)).1,
    (C2_layout_fits_and_centered 1600 1200 595 842
      (by norm_num) (by norm_num) (by norm_num) (by norm_num)).2.2.1⟩

/-- C9: when the image aspect equals the page aspect exactly, the
height-constrained branch is taken (the width-constrained branch is taken
only when the image aspect is strictly greater, mirroring Python's `>` on
source line 47), and both branches yield the same layout, so the tie-break
is deterministic and result-irrelevant. -/
theorem C9_tie_break_deterministic
    (img_width img_height pdf_width pdf_height : ℚ)
    (hiw : 0 < img_width) (hih : 0 < img_height)
    (hpw : 0 < pdf_width) (hph : 0 < pdf_height)
    (heq : img_width / img_height = pdf_width / pdf_height) :
    computeLayout img_width img_height pdf_width pdf_height =
      layoutHeightConstrained img_width img_height pdf_width pdf_height ∧
    layoutWidthConstrained img_width img_height pdf_width pdf_height =
      layoutHeightConstrained img_width img_height pdf_width pdf_height ∧
    (∀ w h : ℚ, ¬ (w / h > pdf_width / pdf_height) →
      computeLayout w h pdf_width pdf_height =
        layoutHeightConstrained w h pdf_width pdf_height) := by
  have hph' : pdf_height ≠ 0 := ne_of_gt hph
  have ha : img_width / img_height ≠ 0 := ne_of_gt (div_pos hiw hih)
  have h1 : pdf_height * (img_width / img_height) = pdf_width := by
    rw [heq]
    field_simp
  have hpw' : pdf_width ≠ 0 := ne_of_gt hpw
  have h2 : pdf_width / (img_width / img_height) = pdf_height := by
    rw [heq]
    field_simp
  refine ⟨?_, ?_, ?_⟩
  · unfold computeLayout
    rw [if_neg (by rw [heq]; exact lt_irrefl _)]
  · unfold layoutWidthConstrained layoutHeightConstrained
    dsimp only
    rw [h1, h2]
  · intro w h hn
    unfold computeLayout
    rw [if_neg hn]

theorem C9_tie_break_deterministic_witness :
    computeLayout 4 3 8 6 = layoutHeightConstrained 4 3 8 6 :=
  (C9_tie_break_deterministic 4 3 8 6
    (by norm_num) (by norm_num) (by norm_num) (by norm_num) (by norm_num)).1

/-- C3: the four quadrant rectangles obtained by bisecting at
`(img_width // 2, img_height // 2)` partition the image: every pixel of
`[0, img_width) × [0, img_height)` lies in some quadrant, no pixel lies in
two distinct quadrants, and for a 100×99 image the midpoint is 49, the
upper quadrants span rows 0..49 and the lower quadrants rows 49..99. -/
theorem C3_quadrants_partition :
    (∀ img_width img_height x y : ℕ, x < img_width → y < img_height →
      ∃ k : QuadKey, (quadrants img_width img_height k).containsPixel x y) ∧
    (∀ (img_width img_height : ℕ) (k k' : QuadKey), k ≠ k' → ∀ x y : ℕ,
      ¬ ((quadrants img_width img_height k).containsPixel x y ∧
        (quadrants img_width img_height k').containsPixel x y)) ∧
    (quad_height 99 = 49 ∧
      (quadrants 100 99 QuadKey.upper_left).y0 = 0 ∧
      (quadrants 100 99 QuadKey.upper_left).y1 = 49 ∧
      (quadrants 100 99 QuadKey.upper_right).y0 = 0 ∧
      (quadrants 100 99 QuadKey.upper_right).y1 = 49 ∧
      (quadrants 100 99 QuadKey.lower_left).y0 = 49 ∧
      (quadrants 100 99 QuadKey.lower_left).y1 = 99 ∧
      (quadrants 100 99 QuadKey.lower_right).y0 = 49 ∧
      (quadrants 100 99 QuadKey.lower_right).y1 = 99) := by
  refine ⟨?_, ?_, by decide⟩
  · intro img_width img_height x y hx hy
    by_cases hxm : x < quad_width img_width <;>
      by_cases hym : y < quad_height img_height
    · refine ⟨QuadKey.upper_left, ?_⟩
      simp only [quadrants, Rect.containsPixel, quad_width, quad_height] at *
      omega
    · refine ⟨QuadKey.lower_left, ?_⟩
      simp only [quadrants, Rect.containsPixel, quad_width, quad_height] at *
      omega
    · refine ⟨QuadKey.upper_right, ?_⟩
      simp only [quadrants, Rect.containsPixel, quad_width, quad_height] at *
      omega
    · refine ⟨QuadKey.lower_right, ?_⟩
      simp only [quadrants, Rect.containsPixel, quad_width, quad_height] at *
      omega
  · rintro img_width img_height k k' hne x y ⟨h1, h2⟩
    cases k <;> cases k' <;>
      first
        | exact hne rfl
        | (simp only [quadrants, Rect.containsPixel, quad_width,
            quad_height] at h1 h2; omega)

theorem C3_quadrants_partition_witness :
    ∃ k : QuadKey, (quadrants 100 99 k).containsPixel 73 50 :=
  C3_quadrants_partition.1 100 99 73 50 (by norm_num) (by norm_num)

/-- C10: when both image dimensions are at least 2, every quadrant crop has
positive width and height, so the aspect division
`cropped_quad.width / cropped_quad.height` is well defined; but for a
positive input with a dimension equal to 1 the floor midpoint is 0, a
quadrant crop has zero height, and the quadrant layout division raises
`ZeroDivisionError`, which `create_plan_pdf` lets escape — so the function
is total only under the stronger precondition that both dimensions are at
least 2. -/
theorem C10_quadrant_dims :
    (∀ img_width img_height : ℕ, 2 ≤ img_width → 2 ≤ img_height →
      ∀ k : QuadKey, 0 < (quadrants img_width img_height k).width ∧
        0 < (quadrants img_width img_height k).height) ∧
    (∃ img_width img_height : ℕ, 0 < img_width ∧ 0 < img_height ∧
      (img_width = 1 ∨ img_height = 1) ∧
      ∃ k : QuadKey, (quadrants img_width img_height k).height = 0 ∧
        create_plan_pdf (allOkEnv ⟨img_width, img_height, "RGB"⟩) =
          Except.error PyError.zeroDivision) := by
  constructor
  · intro img_width img_height hw hh k
    cases k <;>
      (simp only [quadrants, Rect.width, Rect.height, quad_width,
        quad_height]; omega)
  · exact ⟨1, 1, by norm_num, by norm_num, Or.inl rfl,
      QuadKey.upper_left, rfl, rfl⟩

theorem C10_quadrant_dims_witness :
    0 < (quadrants 4 3 QuadKey.upper_left).width ∧
    0 < (quadrants 4 3 QuadKey.upper_left).height :=
  C10_quadrant_dims.1 4 3 (by norm_num) (by norm_num) QuadKey.upper_left

theorem drawQuadrantPages_ne_ok_false (env : RenderEnv)
    (img_width img_height : ℕ) :
    ∀ (ks : List QuadKey) (page : ℕ),
      drawQuadrantPages env img_width img_height ks page ≠
        Except.ok false := by
  intro ks
  induction ks with
  | nil =>
      intro page
      unfold drawQuadrantPages
      rcases env.saveResult with e | u <;> simp
  | cons k ks ih =>
      intro page
      unfold drawQuadrantPages
      dsimp only
      split
      · simp
      · rcases env.drawResult page with e | u <;> simp [ih]

/-- C4 counterexample: the image opens successfully (800×600 RGB) and the
first drawing call raises, yet `create_plan_pdf` lets the exception escape
(an `.error` result) instead of converting it into a failure return — the
`try` of source lines 18-25 covers only `Image.open`. -/
theorem C4_counterexample :
    create_plan_pdf drawFailEnv =
      Except.error (PyError.renderError "drawImage failed") ∧
    ∀ b : Bool, create_plan_pdf drawFailEnv ≠ Except.ok b := by
  refine ⟨rfl, ?_⟩
  intro b h
  rw [show create_plan_pdf drawFailEnv =
    Except.error (PyError.renderError "drawImage failed") from rfl] at h
  exact Except.noConfusion h

/-- C4 (amended): only exceptions raised by `Image.open` are caught and
converted into the failure return `False` — `create_plan_pdf` returns
`False` exactly when opening raised — while an exception raised after the
image is opened (for example by `convert('RGB')` while normalizing)
propagates to the caller instead of becoming a failure result. -/
theorem C4_amended_only_open_errors_caught (env : RenderEnv) :
    (create_plan_pdf env = Except.ok false ↔
      ∃ e, env.openResult = Except.error e) ∧
    (∀ (img : Img) (m : String), env.openResult = Except.ok img →
      img.mode ≠ "RGB" → env.convertResult = Except.error m →
      create_plan_pdf env = Except.error (PyError.renderError m)) := by
  constructor
  · constructor
    · intro h
      rcases ho : env.openResult with e | img
      · exact ⟨e, rfl⟩
      · exfalso
        simp only [create_plan_pdf, ho] at h
        split at h
        · exact Except.noConfusion h
        · split at h
          · exact Except.noConfusion h
          · rcases hd : env.drawResult 0 with e | u <;> rw [hd] at h
            · exact Except.noConfusion h
            · exact drawQuadrantPages_ne_ok_false env img.width img.height
                quadrant_order 1 h
    · rintro ⟨e, he⟩
      simp only [create_plan_pdf, he]
  · intro img m ho hm hc
    simp only [create_plan_pdf, ho]
    rw [if_pos hm, hc]

theorem C4_amended_only_open_errors_caught_witness :
    create_plan_pdf convertFailEnv =
      Except.error (PyError.renderError "image file is truncated") :=
  (C4_amended_only_open_errors_caught convertFailEnv).2 ⟨800, 600, "CMYK"⟩
    "image file is truncated" rfl (by decide) rfl

/-- C5 counterexample: a 1×1 uploaded image makes `create_plan_pdf` raise
`ZeroDivisionError` in the quadrant loop; the exception escapes the button
handler and both temporary files are left undeleted — refuting the claim
that cleanup happens on every exit path. -/
theorem C5_counterexample :
    (submitAction tinyImageSubmitEnv).escaped = some PyError.zeroDivision ∧
    (submitAction tinyImageSubmitEnv).imageDeleted = false ∧
    (submitAction tinyImageSubmitEnv).pdfDeleted = false :=
  ⟨rfl, rfl, rfl⟩

/-- C5 (amended): both temporary files are deleted on every exit path of the
submit action on which no exception escapes — in particular whenever
`create_plan_pdf` returns (success or failure), including when document
assembly succeeds but analysis fails with an error string — but an
exception escaping rendering aborts the handler before the deletion
statements (source lines 244-247), leaving both files undeleted. -/
theorem C5_amended_cleanup_unless_exception (env : SubmitEnv) :
    ((submitAction env).escaped = none →
      (submitAction env).imageDeleted = true ∧
      (submitAction env).pdfDeleted = true) ∧
    (∀ b : Bool, create_plan_pdf env.renderEnv = Except.ok b →
      (submitAction env).imageDeleted = true ∧
      (submitAction env).pdfDeleted = true) := by
  rcases hc : create_plan_pdf env.renderEnv with e | b
  · constructor
    · intro h
      simp only [submitAction, hc] at h
      exact Option.noConfusion h
    · intro b hb
      exact Except.noConfusion hb
  · constructor
    · intro _
      simp only [submitAction, hc]
      cases b <;> simp
    · intro b' _
      simp only [submitAction, hc]
      cases b <;> simp

theorem C5_amended_cleanup_unless_exception_witness :
    (submitAction okSubmitEnv).imageDeleted = true ∧
    (submitAction okSubmitEnv).pdfDeleted = true :=
  (C5_amended_cleanup_unless_exception okSubmitEnv).1 rfl

/-- C6: when the source image file is missing, `Image.open` raises
`FileNotFoundError`, `create_plan_pdf` catches it and returns `False`
without any drawing, no exception escapes the submit action, and the flow
does not proceed to the analysis call. -/
theorem C6_missing_file_no_analysis (env : SubmitEnv) (msg : String)
    (h : env.renderEnv.openResult =
      Except.error (OpenError.fileNotFound msg)) :
    create_plan_pdf env.renderEnv = Except.ok false ∧
    (submitAction env).escaped = none ∧
    (submitAction env).analysisCalled = false ∧
    (submitAction env).analysisResult = none := by
  have hc : create_plan_pdf env.renderEnv = Except.ok false := by
    simp only [create_plan_pdf, h]
  refine ⟨hc, ?_, ?_, ?_⟩ <;> simp [submitAction, hc]

theorem C6_missing_file_no_analysis_witness :
    create_plan_pdf missingFileSubmitEnv.renderEnv = Except.ok false ∧
    (submitAction missingFileSubmitEnv).analysisCalled = false :=
  ⟨(C6_missing_file_no_analysis missingFileSubmitEnv "no such file" rfl).1,
    (C6_missing_file_no_analysis missingFileSubmitEnv "no such file"
      rfl).2.2.1⟩

/-- C7: `get_plan_analysis` checks its preconditions before any network
activity — if the API key is empty, or the document does not exist on
storage, or the prompt is empty after trimming whitespace, it returns one
of the three descriptive error strings with no network call attempted (and,
the result being an ordinary return value, no exception is raised). -/
theorem C7_preconditions_short_circuit
    (gemini_api_key pdf_path prompt_text : String) (env : AnalysisEnv)
    (h : gemini_api_key = "" ∨ env.pdfExists = false ∨
      py_strip prompt_text = "") :
    (get_plan_analysis gemini_api_key pdf_path prompt_text
        env).networkCalled = false ∧
    ((get_plan_analysis gemini_api_key pdf_path prompt_text env).result =
        "Error: Gemini API key not provided." ∨
      (get_plan_analysis gemini_api_key pdf_path prompt_text env).result =
        "Error: PDF file not found at " ++ pdf_path ∨
      (get_plan_analysis gemini_api_key pdf_path prompt_text env).result =
        "Error: Prompt text cannot be empty.") := by
  unfold get_plan_analysis
  by_cases h1 : gemini_api_key = ""
  · rw [if_pos h1]
    exact ⟨rfl, Or.inl rfl⟩
  · rw [if_neg h1]
    by_cases h2 : env.pdfExists = false
    · rw [if_pos h2]
      exact ⟨rfl, Or.inr (Or.inl rfl)⟩
    · rw [if_neg h2]
      by_cases h3 : py_strip prompt_text = ""
      · rw [if_pos h3]
        exact ⟨rfl, Or.inr (Or.inr rfl)⟩
      · rcases h with h | h | h <;> contradiction

theorem C7_preconditions_short_circuit_witness :
    (get_plan_analysis "key" "/tmp/out.pdf" "   " 
        { pdfExists := true, generateResult := Except.ok "text" }
      ).networkCalled = false :=
  (C7_preconditions_short_circuit "key" "/tmp/out.pdf" "   "
    { pdfExists := true, generateResult := Except.ok "text" }
    (Or.inr (Or.inr (by decide)))).1

/-- C8: once the preconditions pass, a failure of the generate-content
request — where network, authentication, quota and model errors surface —
is caught by the handler of source lines 116-126 and converted into a
result string embedding the underlying error detail; the request is the
network call, and no exception propagates to the caller. -/
theorem C8_client_failure_converted
    (gemini_api_key pdf_path prompt_text : String) (env : AnalysisEnv)
    (h1 : gemini_api_key ≠ "") (h2 : env.pdfExists = true)
    (h3 : py_strip prompt_text ≠ "") (e : String)
    (he : env.generateResult = Except.error e) :
    (get_plan_analysis gemini_api_key pdf_path prompt_text env).result =
      "Error interacting with Gemini API: " ++ e ++
        ". Check API key and model access." ∧
    (get_plan_analysis gemini_api_key pdf_path prompt_text
        env).networkCalled = true := by
  unfold get_plan_analysis
  rw [if_neg h1, if_neg (by simp [h2]), if_neg h3, he]
  exact ⟨rfl, rfl⟩

theorem C8_client_failure_converted_witness :
    (get_plan_analysis "key" "/tmp/out.pdf" "Describe the plan."
        { pdfExists := true,
          generateResult := Except.error "429 quota exceeded" }).result =
      "Error interacting with Gemini API: " ++ "429 quota exceeded" ++
        ". Check API key and model access." :=
  (C8_client_failure_converted "key" "/tmp/out.pdf" "Describe the plan."
    { pdfExists := true, generateResult := Except.error "429 quota exceeded" }
    (by decide) rfl (by decide) "429 quota exceeded" rfl).1
